import Mathlib

/-!
# Verification of the SleepIQ SDK façade (`src/index.ts`)

The repository is a generated TypeScript SDK: a façade class `SDK` whose
domain-operation methods each perform one call of the generic engine's
`core.fetch(pathTemplate, verb, arg3?, arg4?)` primitive, plus three
configuration methods (`config`, `auth`, `server`) delegating to the engine's
setters, and a module-level singleton `createSDK`.

The façade itself (method bodies, templates, verbs, argument positions,
return values, the singleton export) is embedded directly from
`src/index.ts`.  The generic engine (`APICore` from the external `api`
package) and the bound OpenAPI document (`openapi.json`) are not part of the
repository's sources; where a claim depends on their behaviour they are
modelled from the specification, in definitions whose doc comments start
with `Modelled from the spec:`.
-/

namespace SleepIQ

/-- HTTP verbs used by the bound API description (only GET and PUT occur). -/
inductive Verb where
  | get : Verb
  | put : Verb
deriving DecidableEq, Repr

/-- A primitive JSON-ish value appearing in request bodies / metadata
(the API's bodies and metadata objects are flat objects of strings and
numbers, e.g. `{mode: "on"}`, `{side: "L", sleepNumber: 45}`). -/
inductive Prim where
  | str : String → Prim
  | num : Int → Prim
deriving DecidableEq, Repr

/-- A flat JSON object: the shape of every body and metadata argument the
façade's methods accept. -/
abbrev Obj := List (String × Prim)

/-- Look up a key in a flat object. -/
def lookupKey (o : Obj) (k : String) : Option Prim :=
  match o with
  | [] => none
  | (k', v) :: rest => if k' = k then some v else lookupKey rest k

/-- Render a primitive as the string substituted into a path template. -/
def Prim.render : Prim → String
  | .str s => s
  | .num n => toString n

/-- The opening-brace character of a path placeholder. -/
def lbrace : Char := Char.ofNat 123

/-- The closing-brace character of a path placeholder. -/
def rbrace : Char := Char.ofNat 125

/-- One segment of a parsed path template: a literal character, or a named
placeholder. -/
inductive Seg where
  | lit : Char → Seg
  | param : String → Seg
deriving DecidableEq, Repr

/-- Parse a path template (a character list) into segments.  A placeholder
is a brace-delimited name, e.g. the template `/bed/{bedId}` has the single
placeholder `bedId`.  `fuel` bounds the recursion; the initial fuel is the
length of the template, which always suffices since every step consumes at
least one character. -/
def parseSegs : Nat → List Char → List Seg
  | 0, _ => []
  | _ + 1, [] => []
  | fuel + 1, c :: rest =>
      if c = lbrace then
        let name := rest.takeWhile (fun d => d ≠ rbrace)
        let rest2 := (rest.dropWhile (fun d => d ≠ rbrace)).drop 1
        Seg.param (String.mk name) :: parseSegs fuel rest2
      else
        Seg.lit c :: parseSegs fuel rest

/-- The parsed segments of a path template string. -/
def templateSegs (t : String) : List Seg :=
  parseSegs t.length t.data

/-- The placeholder names of a path template, in order. -/
def placeholdersOf (t : String) : List String :=
  (templateSegs t).filterMap fun s =>
    match s with
    | .param n => some n
    | .lit _ => none

/-- Substitute metadata values for the placeholders of parsed segments.
Returns `none` when some placeholder has no corresponding metadata key. -/
def resolveSegs : List Seg → Obj → Option String
  | [], _ => some ""
  | .lit c :: rest, md => (resolveSegs rest md).map fun t => String.mk [c] ++ t
  | .param n :: rest, md =>
      match lookupKey md n with
      | none => none
      | some v => (resolveSegs rest md).map fun t => v.render ++ t

/-- Modelled from the spec: path-parameter substitution performed by the
generic engine (the external `api` package, not in this repository).  Every
placeholder of the template must have a corresponding metadata key, or the
resolution fails. -/
def resolvePath (template : String) (md : Obj) : Option String :=
  resolveSegs (templateSegs template) md

/-- Whether a string still contains a placeholder token (an opening brace). -/
def hasPlaceholderToken (s : String) : Bool :=
  s.data.contains lbrace

/-- Transport options settable through `config` (the SDK documents
`timeout`, in milliseconds). -/
structure ConfigOptions where
  timeout : Option Nat
deriving DecidableEq, Repr

/-- Modelled from the spec: the mutable state of the generic engine
(`APICore` of the external `api` package): current auth credential values,
current base server URL, current timeout, plus the fixed user-agent string
passed at construction. -/
structure Core where
  authValues : List String
  serverUrl : String
  timeout : Option Nat
  userAgent : String
deriving DecidableEq, Repr

/-- Modelled from the spec: `APICore.setAuth` stores 1–2 credential values
to be attached to all subsequent requests. -/
def Core.setAuth (c : Core) (values : List String) : Core :=
  { c with authValues := values }

/-- Modelled from the spec: `APICore.setConfig` sets transport options
(the timeout). -/
def Core.setConfig (c : Core) (cfg : ConfigOptions) : Core :=
  { c with timeout := cfg.timeout }

/-- Substitute server variables into a (possibly templated) URL, leaving a
placeholder in place when no variable is supplied for it. -/
def substServerVars : List Seg → List (String × String) → String
  | [], _ => ""
  | .lit c :: rest, vars => String.mk [c] ++ substServerVars rest vars
  | .param n :: rest, vars =>
      (match vars.lookup n with
       | some v => v
       | none => String.mk [lbrace] ++ n ++ String.mk [rbrace]) ++
      substServerVars rest vars

/-- Modelled from the spec: `APICore.setServer` overrides the base URL,
accepting either a literal fully-qualified URL or a templated URL with
variable substitution. -/
def Core.setServer (c : Core) (url : String) (vars : List (String × String)) : Core :=
  { c with serverUrl := substServerVars (templateSegs url) vars }

/-- Modelled from the spec: the default base server URL declared by the
bound API description (`openapi.json`, not in this repository's sources). -/
def boundServerUrl : String := "https://prod-api.sleepiq.sleepnumber.com/rest"

/-- Modelled from the spec: initial engine state built by the `APICore`
constructor: no credentials, the description's default server, the default
timeout, and the user-agent string from `src/index.ts`. -/
def Core.init : Core :=
  { authValues := []
    serverUrl := boundServerUrl
    timeout := none
    userAgent := "sleepiq/1.0.0 (api/6.1.3)" }

/-- The arguments of one invocation of the engine's fetch primitive, as the
façade's methods supply them: path template, verb, and up to two positional
arguments (`arg3`/`arg4` are the third and fourth positional arguments of
`core.fetch` in `src/index.ts`). -/
structure FetchCall where
  path : String
  verb : Verb
  arg3 : Option Obj
  arg4 : Option Obj
deriving DecidableEq, Repr

/-- A concrete outgoing HTTP request as dispatched by the engine: target
server, resolved path, verb, serialized body, and the attached auth
credential values. -/
structure Request where
  server : String
  url : String
  verb : Verb
  body : Option Obj
  auth : List String
deriving DecidableEq, Repr

/-- A received HTTP response wrapper: status, payload, headers. -/
structure Response where
  status : Nat
  body : Obj
  headers : List (String × String)
deriving DecidableEq, Repr

/-- What the transport layer yields for a dispatched request: a response,
or a transport/network failure with no response. -/
inductive TransportReply where
  | ok : Response → TransportReply
  | failed : String → TransportReply
deriving DecidableEq, Repr

/-- The asynchronous outcome of one engine invocation as seen by the
caller: resolved with a response, or rejected — by a non-2xx response
(carrying the full response wrapper), by a transport failure, or by a
caller-input error detected before dispatch (missing path parameter). -/
inductive Outcome where
  | resolved : Response → Outcome
  | rejectedResponse : Response → Outcome
  | rejectedTransport : String → Outcome
  | rejectedInput : String → Outcome
deriving DecidableEq, Repr

/-- An engine: given the engine state and one fetch invocation's arguments,
the outcome the caller observes.  The façade's methods are stated over an
arbitrary engine; `apiEngine` below is the modelled concrete one. -/
abbrev Engine := Core → FetchCall → Outcome

/-- Modelled from the spec: how the generic engine interprets the two
optional positional arguments of `fetch`.  With both present the third is
the request body and the fourth the metadata; with only the third present
it is matched against the operation's declared parameters — for this API
that means it is the metadata exactly when the path template has
placeholders (operations such as `stopPump` pass their metadata in the
body position), and the request body otherwise (`login`). -/
def FetchCall.split (call : FetchCall) : Option Obj × Option Obj :=
  match call.arg3, call.arg4 with
  | some a, some b => (some a, some b)
  | some a, none =>
      if (placeholdersOf call.path).isEmpty then (some a, none) else (none, some a)
  | none, a4 => (none, a4)

/-- Modelled from the spec: request construction inside the generic engine.
Placeholders of the path template are substituted from the metadata; a
placeholder with no corresponding metadata key is a caller-input error and
no request is built.  Otherwise the single outgoing request carries the
resolved path, the verb, the body, and the currently configured server URL
and auth credential values. -/
def buildRequest (c : Core) (call : FetchCall) : Except String Request :=
  let args := call.split
  match resolvePath call.path ((args.2).getD []) with
  | none => Except.error ("missing path parameter in " ++ call.path)
  | some url =>
      Except.ok
        { server := c.serverUrl
          url := url
          verb := call.verb
          body := args.1
          auth := c.authValues }

/-- Modelled from the spec: the generic engine's fetch primitive, over an
arbitrary transport.  A caller-input error rejects without dispatching;
otherwise exactly one request is dispatched, a 2xx response resolves with
the response wrapper, a non-2xx response rejects carrying that same
wrapper verbatim, and a transport failure rejects with the failure.  No
retry, no interception, no defaulting. -/
def apiEngine (transport : Request → TransportReply) : Engine := fun c call =>
  match buildRequest c call with
  | .error e => .rejectedInput e
  | .ok req =>
      match transport req with
      | .ok resp =>
          if 200 ≤ resp.status ∧ resp.status < 300 then .resolved resp
          else .rejectedResponse resp
      | .failed e => .rejectedTransport e

/-- The requests actually dispatched for a list of engine invocations in
state `c`: one per invocation whose request construction succeeds. -/
def dispatchedRequests (c : Core) (calls : List FetchCall) : List Request :=
  calls.filterMap fun call => (buildRequest c call).toOption

/-- Modelled from the spec: the bound API description's operations, as the
(path template, verb) pairs of the representative-operations table. -/
def ApiDescription : List (String × Verb) :=
  [("/login", .put),
   ("/user/jwt", .get),
   ("/account", .get),
   ("/bed/{bedId}", .get),
   ("/bed/{bedId}/pauseMode", .get),
   ("/bed/{bedId}/pauseMode", .put),
   ("/bed/{bedId}/pump/forceIdle", .put),
   ("/bed/{bedId}/sleepNumber", .put),
   ("/bed/{bedId}/sleepNumberFavorite", .get),
   ("/bed/{bedId}/sleepNumberFavorite", .put),
   ("/bed/{bedId}/foundation/status", .get),
   ("/bed/{bedId}/foundation/outlet", .get),
   ("/bed/{bedId}/foundation/footwarming", .get),
   ("/sleeper/{sleeperId}/calibrate", .put),
   ("/sn/v1/accounts/{accountId}/beds/{bedId}/bamkey", .put)]

/-- The façade instance of `src/index.ts`: a reference to the parsed API
description (`this.spec`) and the engine state (`this.core`). -/
structure SDK where
  spec : List (String × Verb)
  core : Core
deriving DecidableEq, Repr

/-- The `SDK` constructor: `this.spec = Oas.init(definition)`,
`this.core = new APICore(this.spec, 'sleepiq/1.0.0 (api/6.1.3)')`. -/
def SDK.new : SDK :=
  { spec := ApiDescription, core := Core.init }

/-- Replace the façade's engine state (record-update helper standing for
the mutation of `this.core`'s fields by the engine setters). -/
def SDK.withCore (s : SDK) (c : Core) : SDK :=
  { s with core := c }

/-- Translation of `config(config) { this.core.setConfig(config); }` — no return value
(the second component models the method's returned value: `none` when the
TypeScript method returns `undefined`, `some` the façade instance when it
returns `this`). -/
def SDK.config (s : SDK) (cfg : ConfigOptions) : SDK × Option SDK :=
  (s.withCore (s.core.setConfig cfg), none)

/-- Translation of `auth(...values) { this.core.setAuth(...values); return this; }` —
stores the credential values and returns the façade instance itself. -/
def SDK.auth (s : SDK) (values : List String) : SDK × Option SDK :=
  let s2 := s.withCore (s.core.setAuth values)
  (s2, some s2)

/-- Translation of `server(url, variables = \x7b\x7d) { this.core.setServer(url, variables); }`
— no return value. -/
def SDK.server (s : SDK) (url : String) (vars : List (String × String)) : SDK × Option SDK :=
  (s.withCore (s.core.setServer url vars), none)

/-- One invocation of `this.core.fetch(path, verb, arg3?, arg4?)` by a
façade method: the (unchanged) façade state, the list of engine
invocations performed (exactly this one), and the engine's outcome,
returned as the method's result. -/
def invokeFetch (eng : Engine) (s : SDK) (path : String) (verb : Verb)
    (arg3 arg4 : Option Obj) : SDK × List FetchCall × Outcome :=
  (s, [⟨path, verb, arg3, arg4⟩], eng s.core ⟨path, verb, arg3, arg4⟩)

/-- Translation of `login(body) { return this.core.fetch('/login', 'put', body); }` -/
def SDK.login (eng : Engine) (s : SDK) (body : Obj) : SDK × List FetchCall × Outcome :=
  invokeFetch eng s "/login" .put (some body) none

/-- Translation of `getJwt() { return this.core.fetch('/user/jwt', 'get'); }` -/
def SDK.getJwt (eng : Engine) (s : SDK) : SDK × List FetchCall × Outcome :=
  invokeFetch eng s "/user/jwt" .get none none

/-- Translation of `getAccount() { return this.core.fetch('/account', 'get'); }` -/
def SDK.getAccount (eng : Engine) (s : SDK) : SDK × List FetchCall × Outcome :=
  invokeFetch eng s "/account" .get none none

/-- Translation of `getBed(metadata) { return this.core.fetch('/bed/{bedId}', 'get', metadata); }` -/
def SDK.getBed (eng : Engine) (s : SDK) (metadata : Obj) : SDK × List FetchCall × Outcome :=
  invokeFetch eng s "/bed/{bedId}" .get (some metadata) none

/-- Translation of `getPauseMode(metadata) { return this.core.fetch('/bed/{bedId}/pauseMode', 'get', metadata); }` -/
def SDK.getPauseMode (eng : Engine) (s : SDK) (metadata : Obj) : SDK × List FetchCall × Outcome :=
  invokeFetch eng s "/bed/{bedId}/pauseMode" .get (some metadata) none

/-- Translation of `setPauseMode(body, metadata) { return this.core.fetch('/bed/{bedId}/pauseMode', 'put', body, metadata); }` -/
def SDK.setPauseMode (eng : Engine) (s : SDK) (body metadata : Obj) : SDK × List FetchCall × Outcome :=
  invokeFetch eng s "/bed/{bedId}/pauseMode" .put (some body) (some metadata)

/-- Translation of `stopPump(metadata) { return this.core.fetch('/bed/{bedId}/pump/forceIdle', 'put', metadata); }` -/
def SDK.stopPump (eng : Engine) (s : SDK) (metadata : Obj) : SDK × List FetchCall × Outcome :=
  invokeFetch eng s "/bed/{bedId}/pump/forceIdle" .put (some metadata) none

/-- Translation of `setSleepNumber(body, metadata) { return this.core.fetch('/bed/{bedId}/sleepNumber', 'put', body, metadata); }` -/
def SDK.setSleepNumber (eng : Engine) (s : SDK) (body metadata : Obj) : SDK × List FetchCall × Outcome :=
  invokeFetch eng s "/bed/{bedId}/sleepNumber" .put (some body) (some metadata)

/-- Translation of `getFavorite(metadata) { return this.core.fetch('/bed/{bedId}/sleepNumberFavorite', 'get', metadata); }` -/
def SDK.getFavorite (eng : Engine) (s : SDK) (metadata : Obj) : SDK × List FetchCall × Outcome :=
  invokeFetch eng s "/bed/{bedId}/sleepNumberFavorite" .get (some metadata) none

/-- Translation of `setFavorite(body, metadata) { return this.core.fetch('/bed/{bedId}/sleepNumberFavorite', 'put', body, metadata); }` -/
def SDK.setFavorite (eng : Engine) (s : SDK) (body metadata : Obj) : SDK × List FetchCall × Outcome :=
  invokeFetch eng s "/bed/{bedId}/sleepNumberFavorite" .put (some body) (some metadata)

/-- Translation of `getFoundation(metadata) { return this.core.fetch('/bed/{bedId}/foundation/status', 'get', metadata); }` -/
def SDK.getFoundation (eng : Engine) (s : SDK) (metadata : Obj) : SDK × List FetchCall × Outcome :=
  invokeFetch eng s "/bed/{bedId}/foundation/status" .get (some metadata) none

/-- Translation of `checkOutlet(metadata) { return this.core.fetch('/bed/{bedId}/foundation/outlet', 'get', metadata); }` -/
def SDK.checkOutlet (eng : Engine) (s : SDK) (metadata : Obj) : SDK × List FetchCall × Outcome :=
  invokeFetch eng s "/bed/{bedId}/foundation/outlet" .get (some metadata) none

/-- Translation of `getFootWarming(metadata) { return this.core.fetch('/bed/{bedId}/foundation/footwarming', 'get', metadata); }` -/
def SDK.getFootWarming (eng : Engine) (s : SDK) (metadata : Obj) : SDK × List FetchCall × Outcome :=
  invokeFetch eng s "/bed/{bedId}/foundation/footwarming" .get (some metadata) none

/-- Translation of `calibrate(metadata) { return this.core.fetch('/sleeper/{sleeperId}/calibrate', 'put', metadata); }` -/
def SDK.calibrate (eng : Engine) (s : SDK) (metadata : Obj) : SDK × List FetchCall × Outcome :=
  invokeFetch eng s "/sleeper/{sleeperId}/calibrate" .put (some metadata) none

/-- Translation of `executeBam(body, metadata) { return this.core.fetch('/sn/v1/accounts/{accountId}/beds/{bedId}/bamkey', 'put', body, metadata); }` -/
def SDK.executeBam (eng : Engine) (s : SDK) (body metadata : Obj) : SDK × List FetchCall × Outcome :=
  invokeFetch eng s "/sn/v1/accounts/{accountId}/beds/{bedId}/bamkey" .put (some body) (some metadata)

/-- Translation of `const createSDK = (() => { return new SDK(); })()` — the module-level
default export, eagerly constructed when the module is evaluated. -/
def createSDK : SDK := SDK.new

/-- Modelled from the spec: ES-module semantics — a module body is
evaluated once per process and its default export is cached, so every
importer (indexed here by an arbitrary import site) receives the module's
one `createSDK` value. -/
def importDefault : Nat → SDK := fun _ => createSDK

/-- A domain-operation invocation with its caller-supplied arguments (one
constructor per domain method of the façade). -/
inductive DomainOp where
  | login : Obj → DomainOp
  | getJwt : DomainOp
  | getAccount : DomainOp
  | getBed : Obj → DomainOp
  | getPauseMode : Obj → DomainOp
  | setPauseMode : Obj → Obj → DomainOp
  | stopPump : Obj → DomainOp
  | setSleepNumber : Obj → Obj → DomainOp
  | getFavorite : Obj → DomainOp
  | setFavorite : Obj → Obj → DomainOp
  | getFoundation : Obj → DomainOp
  | checkOutlet : Obj → DomainOp
  | getFootWarming : Obj → DomainOp
  | calibrate : Obj → DomainOp
  | executeBam : Obj → Obj → DomainOp
deriving DecidableEq, Repr

/-- Dispatch a domain operation to the corresponding façade method. -/
def runOp (eng : Engine) (s : SDK) : DomainOp → SDK × List FetchCall × Outcome
  | .login body => SDK.login eng s body
  | .getJwt => SDK.getJwt eng s
  | .getAccount => SDK.getAccount eng s
  | .getBed md => SDK.getBed eng s md
  | .getPauseMode md => SDK.getPauseMode eng s md
  | .setPauseMode body md => SDK.setPauseMode eng s body md
  | .stopPump md => SDK.stopPump eng s md
  | .setSleepNumber body md => SDK.setSleepNumber eng s body md
  | .getFavorite md => SDK.getFavorite eng s md
  | .setFavorite body md => SDK.setFavorite eng s body md
  | .getFoundation md => SDK.getFoundation eng s md
  | .checkOutlet md => SDK.checkOutlet eng s md
  | .getFootWarming md => SDK.getFootWarming eng s md
  | .calibrate md => SDK.calibrate eng s md
  | .executeBam body md => SDK.executeBam eng s body md

/-- The fixed path template of each domain operation, as written in the
corresponding `core.fetch` call of `src/index.ts`. -/
def opTemplate : DomainOp → String
  | .login _ => "/login"
  | .getJwt => "/user/jwt"
  | .getAccount => "/account"
  | .getBed _ => "/bed/{bedId}"
  | .getPauseMode _ => "/bed/{bedId}/pauseMode"
  | .setPauseMode _ _ => "/bed/{bedId}/pauseMode"
  | .stopPump _ => "/bed/{bedId}/pump/forceIdle"
  | .setSleepNumber _ _ => "/bed/{bedId}/sleepNumber"
  | .getFavorite _ => "/bed/{bedId}/sleepNumberFavorite"
  | .setFavorite _ _ => "/bed/{bedId}/sleepNumberFavorite"
  | .getFoundation _ => "/bed/{bedId}/foundation/status"
  | .checkOutlet _ => "/bed/{bedId}/foundation/outlet"
  | .getFootWarming _ => "/bed/{bedId}/foundation/footwarming"
  | .calibrate _ => "/sleeper/{sleeperId}/calibrate"
  | .executeBam _ _ => "/sn/v1/accounts/{accountId}/beds/{bedId}/bamkey"

/-- The caller-supplied metadata object of a domain operation, when the
operation takes one. -/
def opMetadata : DomainOp → Option Obj
  | .login _ => none
  | .getJwt => none
  | .getAccount => none
  | .getBed md => some md
  | .getPauseMode md => some md
  | .setPauseMode _ md => some md
  | .stopPump md => some md
  | .setSleepNumber _ md => some md
  | .getFavorite md => some md
  | .setFavorite _ md => some md
  | .getFoundation md => some md
  | .checkOutlet md => some md
  | .getFootWarming md => some md
  | .calibrate md => some md
  | .executeBam _ md => some md

/-- One caller interaction with the façade: a configuration call or a
domain-operation call. -/
inductive Cmd where
  | doConfig : ConfigOptions → Cmd
  | doAuth : List String → Cmd
  | doServer : String → List (String × String) → Cmd
  | doOp : DomainOp → Cmd
deriving DecidableEq, Repr

/-- Whether a command re-authenticates with credential values other than
`vs`. -/
def Cmd.isReauthOtherThan (c : Cmd) (vs : List String) : Bool :=
  match c with
  | .doAuth vs2 => vs2 ≠ vs
  | _ => false

/-- Execute one command against the façade (domain operations run through
the modelled concrete engine over the given transport); yields the next
façade state and the requests dispatched on the wire. -/
def SDK.step (transport : Request → TransportReply) (s : SDK) : Cmd → SDK × List Request
  | .doConfig cfg => ((s.config cfg).1, [])
  | .doAuth vs => ((s.auth vs).1, [])
  | .doServer url vars => ((s.server url vars).1, [])
  | .doOp op =>
      let r := runOp (apiEngine transport) s op
      (r.1, dispatchedRequests s.core r.2.1)

/-- Execute a command sequence, collecting all dispatched requests. -/
def SDK.run (transport : Request → TransportReply) (s : SDK) : List Cmd → SDK × List Request
  | [] => (s, [])
  | c :: cs =>
      let st := s.step transport c
      let rest := st.1.run transport cs
      (rest.1, st.2 ++ rest.2)

/-- The HTTP verb of each domain operation, as written in the corresponding
`core.fetch` call of `src/index.ts`. -/
def opVerb : DomainOp → Verb
  | .login _ => .put
  | .getJwt => .get
  | .getAccount => .get
  | .getBed _ => .get
  | .getPauseMode _ => .get
  | .setPauseMode _ _ => .put
  | .stopPump _ => .put
  | .setSleepNumber _ _ => .put
  | .getFavorite _ => .get
  | .setFavorite _ _ => .put
  | .getFoundation _ => .get
  | .checkOutlet _ => .get
  | .getFootWarming _ => .get
  | .calibrate _ => .put
  | .executeBam _ _ => .put

/-- The engine invocation each domain operation performs: its fixed
template and verb, and the caller's arguments in the positions used by
`src/index.ts`. -/
def opCall : DomainOp → FetchCall
  | .login body => ⟨"/login", .put, some body, none⟩
  | .getJwt => ⟨"/user/jwt", .get, none, none⟩
  | .getAccount => ⟨"/account", .get, none, none⟩
  | .getBed md => ⟨"/bed/{bedId}", .get, some md, none⟩
  | .getPauseMode md => ⟨"/bed/{bedId}/pauseMode", .get, some md, none⟩
  | .setPauseMode body md => ⟨"/bed/{bedId}/pauseMode", .put, some body, some md⟩
  | .stopPump md => ⟨"/bed/{bedId}/pump/forceIdle", .put, some md, none⟩
  | .setSleepNumber body md => ⟨"/bed/{bedId}/sleepNumber", .put, some body, some md⟩
  | .getFavorite md => ⟨"/bed/{bedId}/sleepNumberFavorite", .get, some md, none⟩
  | .setFavorite body md => ⟨"/bed/{bedId}/sleepNumberFavorite", .put, some body, some md⟩
  | .getFoundation md => ⟨"/bed/{bedId}/foundation/status", .get, some md, none⟩
  | .checkOutlet md => ⟨"/bed/{bedId}/foundation/outlet", .get, some md, none⟩
  | .getFootWarming md => ⟨"/bed/{bedId}/foundation/footwarming", .get, some md, none⟩
  | .calibrate md => ⟨"/sleeper/{sleeperId}/calibrate", .put, some md, none⟩
  | .executeBam body md => ⟨"/sn/v1/accounts/{accountId}/beds/{bedId}/bamkey", .put, some body, some md⟩

/-- A transport in which the server is unreachable: every dispatch is a
network failure. -/
def transportOffline : Request → TransportReply := fun _ => .failed "offline"

/-- The 404 response returned by `transport404`. -/
def resp404 : Response := ⟨404, [], []⟩

/-- A transport that answers every request with a 404 response. -/
def transport404 : Request → TransportReply := fun _ => .ok resp404

/-- The engine invocation performed by `getBed` with `{bedId: "123"}`. -/
def callBed123 : FetchCall := ⟨"/bed/{bedId}", .get, some [("bedId", Prim.str "123")], none⟩

/-- The engine invocation performed by `getBed` with empty metadata. -/
def callBedEmpty : FetchCall := ⟨"/bed/{bedId}", .get, some [], none⟩

/-- The request the engine builds for `callBed123` in the initial engine
state. -/
def reqBed123 : Request := ⟨boundServerUrl, "/bed/123", .get, none, []⟩

/-- A command trace: a bed read, a re-authentication with the same key,
then a pump stop. -/
def cmdsTrace : List Cmd :=
  [Cmd.doOp (DomainOp.getBed [("bedId", Prim.str "123")]),
   Cmd.doAuth ["key1"],
   Cmd.doOp (DomainOp.stopPump [("bedId", Prim.str "123")])]

/-- The bed-read request dispatched along `cmdsTrace` when the credential
value `key1` is configured. -/
def reqBed123Auth : Request := ⟨boundServerUrl, "/bed/123", .get, none, ["key1"]⟩

/-- Every domain operation performs exactly the one engine invocation
`opCall op`, leaves the façade state untouched, and returns the engine's
outcome on that invocation. -/
theorem runOp_eq (eng : Engine) (s : SDK) (op : DomainOp) :
    runOp eng s op = (s, [opCall op], eng s.core (opCall op)) := by
  cases op <;> rfl

/-- The path of a domain operation's engine invocation is its fixed
template. -/
theorem opCall_path (op : DomainOp) : (opCall op).path = opTemplate op := by
  cases op <;> rfl

/-- For a domain operation taking a metadata argument, the engine
identifies precisely that argument as the call's metadata. -/
theorem opCall_split_md (op : DomainOp) (md : Obj) (h : opMetadata op = some md) :
    ((opCall op).split).2 = some md := by
  cases op <;> simp [opMetadata] at h <;> subst h <;> rfl

/-- If a placeholder name's key is missing from the metadata, segment
resolution fails. -/
theorem resolveSegs_missing (md : Obj) (n : String) (hk : lookupKey md n = none) :
    ∀ segs : List Seg, Seg.param n ∈ segs → resolveSegs segs md = none := by
  intro segs
  induction segs with
  | nil => intro h; cases h
  | cons sg rest ih =>
      intro hmem
      cases sg with
      | lit c =>
          have htail : Seg.param n ∈ rest := by
            rcases List.mem_cons.mp hmem with heq | h
            · cases heq
            · exact h
          simp [resolveSegs, ih htail]
      | param m =>
          by_cases hm : m = n
          · subst hm; simp [resolveSegs, hk]
          · have htail : Seg.param n ∈ rest := by
              rcases List.mem_cons.mp hmem with heq | h
              · cases heq; exact absurd rfl hm
              · exact h
            cases hlm : lookupKey md m <;> simp [resolveSegs, hlm, ih htail]

/-- If some placeholder of the template has no corresponding metadata key,
path resolution fails. -/
theorem resolvePath_missing (t : String) (md : Obj) (p : String)
    (hp : p ∈ placeholdersOf t) (hk : lookupKey md p = none) :
    resolvePath t md = none := by
  rcases List.mem_filterMap.mp hp with ⟨sg, hsg, hf⟩
  have hparam : Seg.param p ∈ templateSegs t := by
    cases sg with
    | lit c => simp at hf
    | param n => simp at hf; subst hf; exact hsg
  exact resolveSegs_missing md p hk _ hparam

/-- When path resolution fails, the engine builds no request and reports a
caller-input error. -/
theorem buildRequest_unresolved (c : Core) (call : FetchCall)
    (h : resolvePath call.path (((call.split).2).getD []) = none) :
    buildRequest c call = .error ("missing path parameter in " ++ call.path) := by
  simp [buildRequest, h]

/-- A request the engine builds carries exactly the engine state's
configured auth credential values. -/
theorem buildRequest_ok_auth (c : Core) (call : FetchCall) (req : Request)
    (h : buildRequest c call = .ok req) : req.auth = c.authValues := by
  cases hres : resolvePath call.path (((call.split).2).getD []) with
  | none => simp [buildRequest, hres] at h
  | some url =>
      simp [buildRequest, hres] at h
      subst h
      rfl

/-- Every dispatched request carries the engine state's configured auth
credential values. -/
theorem mem_dispatched_auth (c : Core) (calls : List FetchCall) (req : Request)
    (h : req ∈ dispatchedRequests c calls) : req.auth = c.authValues := by
  simp only [dispatchedRequests] at h
  rcases List.mem_filterMap.mp h with ⟨call, -, hopt⟩
  cases hb : buildRequest c call with
  | error e => rw [hb] at hopt; simp [Except.toOption] at hopt
  | ok r =>
      rw [hb] at hopt
      simp [Except.toOption] at hopt
      subst hopt
      exact buildRequest_ok_auth c call _ hb

/-- A caller-input error from request construction is surfaced by the
engine as a rejected outcome, unchanged. -/
theorem apiEngine_error (transport : Request → TransportReply) (c : Core)
    (call : FetchCall) (e : String) (h : buildRequest c call = .error e) :
    apiEngine transport c call = .rejectedInput e := by
  simp [apiEngine, h]

/-- Commands that re-authenticate only with the same values keep the
configured credential values stable, and every request dispatched along
the way carries them. -/
theorem run_auth_stable (transport : Request → TransportReply) :
    ∀ (cmds : List Cmd) (s : SDK) (vs : List String),
      s.core.authValues = vs →
      (∀ c ∈ cmds, Cmd.isReauthOtherThan c vs = false) →
      ((s.run transport cmds).1.core.authValues = vs ∧
        ∀ req ∈ (s.run transport cmds).2, req.auth = vs) := by
  intro cmds
  induction cmds with
  | nil =>
      intro s vs hs _
      exact ⟨hs, by simp [SDK.run]⟩
  | cons c cs ih =>
      intro s vs hs hall
      have hc := hall c (List.mem_cons_self c cs)
      have hcs : ∀ x ∈ cs, Cmd.isReauthOtherThan x vs = false :=
        fun x hx => hall x (List.mem_cons_of_mem c hx)
      have hstep : ((s.step transport c).1).core.authValues = vs ∧
          ∀ req ∈ (s.step transport c).2, req.auth = vs := by
        cases c with
        | doConfig cfg =>
            refine ⟨?_, by simp [SDK.step]⟩
            simpa [SDK.step, SDK.config, SDK.withCore, Core.setConfig] using hs
        | doAuth vs2 =>
            have : vs2 = vs := by simpa [Cmd.isReauthOtherThan] using hc
            subst this
            exact ⟨by simp [SDK.step, SDK.auth, SDK.withCore, Core.setAuth],
              by simp [SDK.step]⟩
        | doServer url vars =>
            refine ⟨?_, by simp [SDK.step]⟩
            simpa [SDK.step, SDK.server, SDK.withCore, Core.setServer] using hs
        | doOp op =>
            refine ⟨?_, ?_⟩
            · simpa [SDK.step, runOp_eq] using hs
            · intro req hreq
              simp only [SDK.step] at hreq
              rw [hs.symm]
              exact mem_dispatched_auth s.core _ req hreq
      obtain ⟨h1, h2⟩ := ih (s.step transport c).1 vs hstep.1 hcs
      refine ⟨by simpa [SDK.run] using h1, ?_⟩
      intro req hreq
      simp only [SDK.run] at hreq
      rcases List.mem_append.mp hreq with hl | hr
      · exact hstep.2 req hl
      · exact h2 req hr

/-- C1: every domain-operation method of the façade performs exactly one
invocation of the engine's fetch primitive, with that operation's fixed
path template and HTTP verb — each (template, verb) pair listed in the
bound description's representative-operations table — forwarding the
caller's body and/or metadata arguments unchanged, and returns the
engine's result as the method's result. -/
theorem claim_C1_one_fetch_per_method :
    (∀ (eng : Engine) (s : SDK) (body : Obj),
      SDK.login eng s body =
        (s, [⟨"/login", .put, some body, none⟩],
          eng s.core ⟨"/login", .put, some body, none⟩)) ∧
    (∀ (eng : Engine) (s : SDK),
      SDK.getJwt eng s =
        (s, [⟨"/user/jwt", .get, none, none⟩], eng s.core ⟨"/user/jwt", .get, none, none⟩)) ∧
    (∀ (eng : Engine) (s : SDK),
      SDK.getAccount eng s =
        (s, [⟨"/account", .get, none, none⟩], eng s.core ⟨"/account", .get, none, none⟩)) ∧
    (∀ (eng : Engine) (s : SDK) (md : Obj),
      SDK.getBed eng s md =
        (s, [⟨"/bed/{bedId}", .get, some md, none⟩],
          eng s.core ⟨"/bed/{bedId}", .get, some md, none⟩)) ∧
    (∀ (eng : Engine) (s : SDK) (md : Obj),
      SDK.getPauseMode eng s md =
        (s, [⟨"/bed/{bedId}/pauseMode", .get, some md, none⟩],
          eng s.core ⟨"/bed/{bedId}/pauseMode", .get, some md, none⟩)) ∧
    (∀ (eng : Engine) (s : SDK) (body md : Obj),
      SDK.setPauseMode eng s body md =
        (s, [⟨"/bed/{bedId}/pauseMode", .put, some body, some md⟩],
          eng s.core ⟨"/bed/{bedId}/pauseMode", .put, some body, some md⟩)) ∧
    (∀ (eng : Engine) (s : SDK) (md : Obj),
      SDK.stopPump eng s md =
        (s, [⟨"/bed/{bedId}/pump/forceIdle", .put, some md, none⟩],
          eng s.core ⟨"/bed/{bedId}/pump/forceIdle", .put, some md, none⟩)) ∧
    (∀ (eng : Engine) (s : SDK) (body md : Obj),
      SDK.setSleepNumber eng s body md =
        (s, [⟨"/bed/{bedId}/sleepNumber", .put, some body, some md⟩],
          eng s.core ⟨"/bed/{bedId}/sleepNumber", .put, some body, some md⟩)) ∧
    (∀ (eng : Engine) (s : SDK) (md : Obj),
      SDK.getFavorite eng s md =
        (s, [⟨"/bed/{bedId}/sleepNumberFavorite", .get, some md, none⟩],
          eng s.core ⟨"/bed/{bedId}/sleepNumberFavorite", .get, some md, none⟩)) ∧
    (∀ (eng : Engine) (s : SDK) (body md : Obj),
      SDK.setFavorite eng s body md =
        (s, [⟨"/bed/{bedId}/sleepNumberFavorite", .put, some body, some md⟩],
          eng s.core ⟨"/bed/{bedId}/sleepNumberFavorite", .put, some body, some md⟩)) ∧
    (∀ (eng : Engine) (s : SDK) (md : Obj),
      SDK.getFoundation eng s md =
        (s, [⟨"/bed/{bedId}/foundation/status", .get, some md, none⟩],
          eng s.core ⟨"/bed/{bedId}/foundation/status", .get, some md, none⟩)) ∧
    (∀ (eng : Engine) (s : SDK) (md : Obj),
      SDK.checkOutlet eng s md =
        (s, [⟨"/bed/{bedId}/foundation/outlet", .get, some md, none⟩],
          eng s.core ⟨"/bed/{bedId}/foundation/outlet", .get, some md, none⟩)) ∧
    (∀ (eng : Engine) (s : SDK) (md : Obj),
      SDK.getFootWarming eng s md =
        (s, [⟨"/bed/{bedId}/foundation/footwarming", .get, some md, none⟩],
          eng s.core ⟨"/bed/{bedId}/foundation/footwarming", .get, some md, none⟩)) ∧
    (∀ (eng : Engine) (s : SDK) (md : Obj),
      SDK.calibrate eng s md =
        (s, [⟨"/sleeper/{sleeperId}/calibrate", .put, some md, none⟩],
          eng s.core ⟨"/sleeper/{sleeperId}/calibrate", .put, some md, none⟩)) ∧
    (∀ (eng : Engine) (s : SDK) (body md : Obj),
      SDK.executeBam eng s body md =
        (s, [⟨"/sn/v1/accounts/{accountId}/beds/{bedId}/bamkey", .put, some body, some md⟩],
          eng s.core ⟨"/sn/v1/accounts/{accountId}/beds/{bedId}/bamkey", .put, some body, some md⟩)) ∧
    (∀ op : DomainOp, (opTemplate op, opVerb op) ∈ ApiDescription) := by
  refine ⟨fun _ _ _ => rfl, fun _ _ => rfl, fun _ _ => rfl, fun _ _ _ => rfl,
    fun _ _ _ => rfl, fun _ _ _ _ => rfl, fun _ _ _ => rfl, fun _ _ _ _ => rfl,
    fun _ _ _ => rfl, fun _ _ _ _ => rfl, fun _ _ _ => rfl, fun _ _ _ => rfl,
    fun _ _ _ => rfl, fun _ _ _ => rfl, fun _ _ _ _ => rfl, ?_⟩
  intro op
  cases op <;> simp only [opTemplate, opVerb] <;> decide

/-- C2: invoking any declared operation that takes path placeholders while
the metadata omits a required path parameter yields a rejected outcome
(a caller-input error) and dispatches no request at all — no request with
an unresolved placeholder token goes out. -/
theorem claim_C2_missing_param_rejected
    (transport : Request → TransportReply) (s : SDK) (op : DomainOp) (md : Obj) (p : String)
    (hmd : opMetadata op = some md)
    (hp : p ∈ placeholdersOf (opTemplate op))
    (hk : lookupKey md p = none) :
    (∃ e, (runOp (apiEngine transport) s op).2.2 = Outcome.rejectedInput e) ∧
      (s.step transport (Cmd.doOp op)).2 = [] := by
  have hres : resolvePath (opTemplate op) md = none := resolvePath_missing _ md p hp hk
  have hbuild : buildRequest s.core (opCall op) =
      .error ("missing path parameter in " ++ (opCall op).path) := by
    apply buildRequest_unresolved
    rw [opCall_path op, opCall_split_md op md hmd]
    exact hres
  constructor
  · refine ⟨"missing path parameter in " ++ (opCall op).path, ?_⟩
    rw [runOp_eq]
    exact apiEngine_error transport s.core (opCall op) _ hbuild
  · simp [SDK.step, runOp_eq, dispatchedRequests, hbuild, Except.toOption]

/-- Witness for C2: `getBed` invoked with empty metadata (omitting the
required `bedId`) is rejected as a caller-input error and dispatches
nothing. -/
theorem claim_C2_witness :
    (∃ e, (runOp (apiEngine transportOffline) SDK.new (DomainOp.getBed [])).2.2 =
        Outcome.rejectedInput e) ∧
      (SDK.new.step transportOffline (Cmd.doOp (DomainOp.getBed []))).2 = [] :=
  claim_C2_missing_param_rejected transportOffline SDK.new (DomainOp.getBed []) [] "bedId"
    rfl (by decide) rfl

/-- C3: the façade performs exactly one engine invocation per method call
and returns the engine's outcome untouched (no retry, no interception, no
defaulting); and every failure of the engine invocation — a caller-input
error, a non-2xx response, or a transport failure — is surfaced to the
caller as a rejected outcome carrying the available information (the full
response wrapper with status, body and headers for a non-2xx response)
verbatim, under no other exception shape. -/
theorem claim_C3_failure_propagation :
    (∀ (eng : Engine) (s : SDK) (op : DomainOp),
        runOp eng s op = (s, [opCall op], eng s.core (opCall op))) ∧
    (∀ (transport : Request → TransportReply) (c : Core) (call : FetchCall) (e : String),
        buildRequest c call = .error e →
        apiEngine transport c call = Outcome.rejectedInput e) ∧
    (∀ (transport : Request → TransportReply) (c : Core) (call : FetchCall)
        (req : Request) (resp : Response),
        buildRequest c call = .ok req → transport req = .ok resp →
        ¬(200 ≤ resp.status ∧ resp.status < 300) →
        apiEngine transport c call = Outcome.rejectedResponse resp) ∧
    (∀ (transport : Request → TransportReply) (c : Core) (call : FetchCall)
        (req : Request) (e : String),
        buildRequest c call = .ok req → transport req = .failed e →
        apiEngine transport c call = Outcome.rejectedTransport e) := by
  refine ⟨runOp_eq, apiEngine_error, ?_, ?_⟩
  · intro transport c call req resp hb htr hstatus
    simp [apiEngine, hb, htr, hstatus]
  · intro transport c call req e hb htr
    simp [apiEngine, hb, htr]

/-- Witness for C3: against the initial engine state, a 404 answer to the
`getBed` request is surfaced as a rejection carrying that very response, a
network failure is surfaced as a transport rejection, and a missing
`bedId` is surfaced as a caller-input rejection. -/
theorem claim_C3_witness :
    apiEngine transport404 Core.init callBed123 = Outcome.rejectedResponse resp404 ∧
      apiEngine transportOffline Core.init callBed123 = Outcome.rejectedTransport "offline" ∧
      apiEngine transport404 Core.init callBedEmpty =
        Outcome.rejectedInput "missing path parameter in /bed/{bedId}" :=
  ⟨claim_C3_failure_propagation.2.2.1 transport404 Core.init callBed123 reqBed123 resp404
      rfl rfl (by decide),
    claim_C3_failure_propagation.2.2.2 transportOffline Core.init callBed123 reqBed123
      "offline" rfl rfl,
    claim_C3_failure_propagation.2.1 transport404 Core.init callBedEmpty
      "missing path parameter in /bed/{bedId}" rfl⟩

/-- C4: `setPauseMode({mode:"on"}, {bedId:"123"})` dispatches exactly one
request: verb PUT, resolved path `/bed/123/pauseMode`, body `{mode:"on"}`
(in any façade state, over any transport). -/
theorem claim_C4_setPauseMode_request (transport : Request → TransportReply) (s : SDK) :
    s.step transport
        (Cmd.doOp (DomainOp.setPauseMode [("mode", Prim.str "on")] [("bedId", Prim.str "123")])) =
      (s, [{ server := s.core.serverUrl, url := "/bed/123/pauseMode", verb := Verb.put,
             body := some [("mode", Prim.str "on")], auth := s.core.authValues }]) := by
  rfl

/-- C5: `getBed({bedId: "123"})` dispatches exactly one request: verb GET,
path exactly `/bed/123` — the template `/bed/{bedId}` resolved with zero
remaining placeholder tokens. -/
theorem claim_C5_getBed_request (transport : Request → TransportReply) (s : SDK) :
    s.step transport (Cmd.doOp (DomainOp.getBed [("bedId", Prim.str "123")])) =
      (s, [{ server := s.core.serverUrl, url := "/bed/123", verb := Verb.get,
             body := none, auth := s.core.authValues }]) ∧
      resolvePath "/bed/{bedId}" [("bedId", Prim.str "123")] = some "/bed/123" ∧
      hasPlaceholderToken "/bed/123" = false :=
  ⟨rfl, rfl, by decide⟩

/-- C6: after `auth` is called with credential values, every request
dispatched by a subsequent command sequence carries those values as long
as `auth` is not called again with different values; and calling `auth`
again with the same values leaves the façade state unchanged. -/
theorem claim_C6_auth_persistence :
    (∀ (transport : Request → TransportReply) (s : SDK) (vs : List String) (cmds : List Cmd),
        (∀ c ∈ cmds, Cmd.isReauthOtherThan c vs = false) →
        ∀ req ∈ (((s.auth vs).1).run transport cmds).2, req.auth = vs) ∧
    (∀ (s : SDK) (vs : List String), (((s.auth vs).1).auth vs).1 = (s.auth vs).1) := by
  constructor
  · intro transport s vs cmds hall
    exact (run_auth_stable transport cmds ((s.auth vs).1) vs rfl hall).2
  · intro s vs
    rfl

/-- Witness for C6: after `auth(["key1"])`, the bed-read request
dispatched along a trace that re-authenticates only with the same key
still carries `["key1"]`. -/
theorem claim_C6_witness : Request.auth reqBed123Auth = ["key1"] :=
  claim_C6_auth_persistence.1 transportOffline SDK.new ["key1"] cmdsTrace (by decide)
    reqBed123Auth (by decide)

/-- C7: no domain-operation method mutates the façade: its `spec` and
`core` fields (and hence auth, server and timeout) are identical before
and after the call, for every engine and every transport. -/
theorem claim_C7_no_state_mutation (eng : Engine) (transport : Request → TransportReply)
    (s : SDK) (op : DomainOp) :
    (runOp eng s op).1 = s ∧ (runOp eng s op).1.spec = s.spec ∧
      (runOp eng s op).1.core = s.core ∧ (s.step transport (Cmd.doOp op)).1 = s := by
  refine ⟨?_, ?_, ?_, ?_⟩ <;> cases op <;> rfl

/-- C8: `auth` returns the façade instance itself (the same, updated,
instance — permitting chaining), while `config` and `server` return no
value. -/
theorem claim_C8_auth_returns_self (s : SDK) (values : List String) (cfg : ConfigOptions)
    (url : String) (vars : List (String × String)) :
    (s.auth values).2 = some (s.auth values).1 ∧
      (s.config cfg).2 = none ∧ (s.server url vars).2 = none :=
  ⟨rfl, rfl, rfl⟩

/-- C9: the module's default export is the single eagerly-constructed SDK
instance, and every importer receives that same instance. -/
theorem claim_C9_singleton_export :
    createSDK = SDK.new ∧ (∀ i : Nat, importDefault i = createSDK) ∧
      (∀ i j : Nat, importDefault i = importDefault j) :=
  ⟨rfl, fun _ => rfl, fun _ _ => rfl⟩

/-- C10: `stopPump` and `calibrate` forward their metadata object as the
third argument of the engine's fetch primitive (the body position) with no
fourth argument, while every operation taking both a body and metadata
forwards the body third and the metadata fourth. -/
theorem claim_C10_arg_positions (eng : Engine) (s : SDK) (body md : Obj) :
    (SDK.stopPump eng s md).2.1 = [⟨"/bed/{bedId}/pump/forceIdle", .put, some md, none⟩] ∧
      (SDK.calibrate eng s md).2.1 = [⟨"/sleeper/{sleeperId}/calibrate", .put, some md, none⟩] ∧
      (SDK.setPauseMode eng s body md).2.1 =
        [⟨"/bed/{bedId}/pauseMode", .put, some body, some md⟩] ∧
      (SDK.setSleepNumber eng s body md).2.1 =
        [⟨"/bed/{bedId}/sleepNumber", .put, some body, some md⟩] ∧
      (SDK.setFavorite eng s body md).2.1 =
        [⟨"/bed/{bedId}/sleepNumberFavorite", .put, some body, some md⟩] ∧
      (SDK.executeBam eng s body md).2.1 =
        [⟨"/sn/v1/accounts/{accountId}/beds/{bedId}/bamkey", .put, some body, some md⟩] :=
  ⟨rfl, rfl, rfl, rfl, rfl, rfl⟩

end SleepIQ
